import Mathlib

/-!
# Verification of the kgcr CRD-discovery pipeline

Shallow embedding of `main.go` of the kgcr tool: the CRD filter, storage-version
resolution, worker-count policy, per-job batch publication, result aggregation,
the four-key sort, and output rendering.  External collaborators (the Kubernetes
clients) are modelled as oracles passed in as parameters; the embedded
definitions follow the Go source line by line.
-/

namespace Kgcr

/-- One declared version of a CRD (`apiextensionsv1.CustomResourceDefinitionVersion`):
its `Name` and whether it carries the `Storage` flag. -/
structure CRDVersion where
  name : String
  storage : Bool
deriving DecidableEq, Repr

/-- `crd.Spec.Names`: only the plural resource name is used by the program. -/
structure CRDNames where
  plural : String
deriving DecidableEq, Repr

/-- `crd.Spec`: group, names, scope (the Go code compares the scope against the
string `"Namespaced"`), and the declared versions. -/
structure CRDSpec where
  group : String
  names : CRDNames
  scope : String
  versions : List CRDVersion
deriving DecidableEq, Repr

/-- A CRD descriptor: its object name (`crd.Name`) and its spec. -/
structure CRD where
  name : String
  spec : CRDSpec
deriving DecidableEq, Repr

/-- `schema.GroupVersionResource`. -/
structure GroupVersionResource where
  group : String
  version : String
  resource : String
deriving DecidableEq, Repr

/-- The `foundResource` struct of `main.go`: one discovered instance. -/
@[ext]
structure foundResource where
  crdName : String
  resourceName : String
  instanceName : String
  «namespace» : String
deriving DecidableEq, Repr

/-- The `crdJob` struct of `main.go`: a CRD together with its pre-computed
stored version and GVR. -/
structure crdJob where
  crd : CRD
  storedVersion : String
  gvr : GroupVersionResource
deriving DecidableEq, Repr

/-- The loop of `getStoredVersion` (main.go lines 305-309): scan the declared
versions in order and return the name of the first one with the storage flag. -/
def findStorageVersionName : List CRDVersion → Option String
  | [] => none
  | v :: rest => if v.storage then some v.name else findStorageVersionName rest

/-- `getStoredVersion` (main.go lines 304-315): the first storage-flagged
version's name; otherwise the first declared version's name; otherwise `""`. -/
def getStoredVersion (crd : CRD) : String :=
  match findStorageVersionName crd.spec.versions with
  | some n => n
  | none =>
    match crd.spec.versions with
    | v :: _ => v.name
    | [] => ""

/-- The filter loop of `main` (main.go lines 117-141): skip CRDs whose scope is
not `"Namespaced"`, skip CRDs whose resolved stored version is empty, and for
the rest emit a `crdJob` with the pre-computed stored version and GVR. -/
def filterCRDs : List CRD → List crdJob
  | [] => []
  | crd :: rest =>
    if crd.spec.scope ≠ "Namespaced" then
      filterCRDs rest
    else
      let storedVersion := getStoredVersion crd
      if storedVersion = "" then
        filterCRDs rest
      else
        { crd := crd, storedVersion := storedVersion,
          gvr := { group := crd.spec.group, version := storedVersion,
                   resource := crd.spec.names.plural } } :: filterCRDs rest

/-- The worker-count computation of `main` (main.go lines 152-159):
`numWorkers := NumCPU*3`, clamped to the job count, then capped at 20. -/
def numWorkersFor (numCPU numJobs : Nat) : Nat :=
  let n0 := numCPU * 3
  let n1 := if n0 > numJobs then numJobs else n0
  if n1 > 20 then 20 else n1

/-- The namespace-flag handling of `main` (main.go lines 78-92): if the flag is
empty and all-namespaces is off, take the current context's namespace
(defaulting to `"default"` when the context is missing or has none); finally,
if all-namespaces is on, clear the namespace. `ctxNamespace`'s `none` models
`rawConfig.Contexts[currentContextName] == nil`. -/
def effectiveNamespace (nsFlag : String) (ctxNamespace : Option String)
    (allNamespaces : Bool) : String :=
  let ns :=
    if nsFlag = "" ∧ ¬ allNamespaces then
      match ctxNamespace with
      | some c => if c ≠ "" then c else "default"
      | none => "default"
    else nsFlag
  if allNamespaces then "" else ns

/-- The comparison closure passed to `sort.Slice` (main.go lines 194-205). -/
def sortLess (a b : foundResource) : Bool :=
  if a.crdName ≠ b.crdName then decide (a.crdName < b.crdName)
  else if a.resourceName ≠ b.resourceName then decide (a.resourceName < b.resourceName)
  else if a.«namespace» ≠ b.«namespace» then decide (a.«namespace» < b.«namespace»)
  else decide (a.instanceName < b.instanceName)

/-- The non-strict order induced by `sortLess`: `a` may precede `b` in the
output of `sort.Slice` exactly when `sortLess b a` is false. -/
def sortLE (a b : foundResource) : Prop := ¬ sortLess b a = true

instance : DecidableRel sortLE := fun a b => by
  unfold sortLE; infer_instance

/-- `sort.Slice` guarantees a result ordered by the comparison closure; we model
it by an explicit comparison sort with respect to `sortLE`. -/
def sortResults (l : List foundResource) : List foundResource :=
  List.insertionSort sortLE l

/-- The four-key strict lexicographic order of the specification: `crdName`,
then `resourceName`, then `namespace`, then `instanceName`, each by the
code-point order on strings. -/
def lexLT (a b : foundResource) : Prop :=
  a.crdName < b.crdName ∨ (a.crdName = b.crdName ∧
    (a.resourceName < b.resourceName ∨ (a.resourceName = b.resourceName ∧
      (a.«namespace» < b.«namespace» ∨ (a.«namespace» = b.«namespace» ∧
        a.instanceName < b.instanceName)))))

/-- The four sort keys of a result, as a lexicographic product. -/
def sortKey (a : foundResource) : String ×ₗ (String ×ₗ (String ×ₗ String)) :=
  toLex (a.crdName, toLex (a.resourceName, toLex (a.«namespace», a.instanceName)))

theorem sortKey_inj {a b : foundResource} (h : sortKey a = sortKey b) : a = b := by
  unfold sortKey at h
  simp only [toLex_inj, Prod.mk.injEq] at h
  cases a; cases b; simp_all

theorem lexLT_iff_sortKey_lt (a b : foundResource) : lexLT a b ↔ sortKey a < sortKey b := by
  unfold lexLT sortKey
  simp [Prod.Lex.lt_iff]

theorem sortLess_iff_lexLT (a b : foundResource) : sortLess a b = true ↔ lexLT a b := by
  unfold sortLess lexLT
  by_cases h1 : a.crdName = b.crdName
  · by_cases h2 : a.resourceName = b.resourceName
    · by_cases h3 : a.«namespace» = b.«namespace»
      · simp [h1, h2, h3, lt_irrefl]
      · simp [h1, h2, h3, lt_irrefl]
    · simp [h1, h2, lt_irrefl]
  · simp only [ne_eq, h1, not_false_eq_true, ite_true, decide_eq_true_eq]
    constructor
    · exact Or.inl
    · rintro (h | ⟨heq, _⟩)
      · exact h
      · exact heq.elim

theorem sortLE_iff_sortKey_le (a b : foundResource) : sortLE a b ↔ sortKey a ≤ sortKey b := by
  unfold sortLE
  rw [← not_lt]
  constructor
  · intro h hk
    exact h ((sortLess_iff_lexLT b a).mpr ((lexLT_iff_sortKey_lt b a).mpr hk))
  · intro h hb
    exact h ((lexLT_iff_sortKey_lt b a).mp ((sortLess_iff_lexLT b a).mp hb))

instance : IsTotal foundResource sortLE :=
  ⟨fun a b => by
    rw [sortLE_iff_sortKey_le, sortLE_iff_sortKey_le]
    exact le_total _ _⟩

instance : IsTrans foundResource sortLE :=
  ⟨fun a b c hab hbc => by
    rw [sortLE_iff_sortKey_le] at *
    exact le_trans hab hbc⟩

instance : IsAntisymm foundResource sortLE :=
  ⟨fun a b hab hba => by
    rw [sortLE_iff_sortKey_le] at hab hba
    exact sortKey_inj (le_antisymm hab hba)⟩

/-- One row of the output table (main.go lines 213 and 218): the byte stream
written for one result, tab-separated; in all-namespaces mode the owning
namespace is the first column. -/
def renderRow (allNamespaces : Bool) (r : foundResource) : String :=
  if allNamespaces then
    r.«namespace» ++ "\t" ++ r.crdName ++ "\t" ++ r.resourceName ++ "\t" ++ r.instanceName ++ "\n"
  else
    r.crdName ++ "\t" ++ r.resourceName ++ "\t" ++ r.instanceName ++ "\n"

/-- The output of `main` after sorting (main.go lines 207-228), as the byte
stream written to the table writer: a header line and one row per result, or
the appropriate "no custom resources" message when the result set is empty.
(The tab writer's column alignment is itself a deterministic function of this
stream, so byte equality of the stream gives byte equality of the rendering.) -/
def renderOutput (allNamespaces : Bool) (ns : String) (results : List foundResource) : String :=
  if results.length > 0 then
    (if allNamespaces then "NAMESPACE\tCRD\tRESOURCE\tNAME\n" else "CRD\tRESOURCE\tNAME\n")
      ++ String.join (results.map (renderRow allNamespaces))
  else
    if allNamespaces then "No custom resources found in any namespace\n"
    else "No custom resources found in namespace: " ++ ns ++ "\n"

/-- One discovered instance as returned by the Instance Query Client
(`item.GetName()` and `item.GetNamespace()`). -/
structure instanceInfo where
  name : String
  «namespace» : String
deriving DecidableEq, Repr

/-- The outcome of one job's instance query as the worker observes it
(main.go lines 238-270): the job may find the context already cancelled
(deadline fired), the query may return an error, or it may succeed with a
list of instances. -/
inductive JobOutcome
  | cancelled
  | errored
  | ok (items : List instanceInfo)
deriving DecidableEq, Repr

/-- The batch a worker builds for one successful job (main.go lines 278-285):
one `foundResource` per returned item, tagged with the job's CRD name and
resource kind, the namespace taken from the item itself. -/
def batchOf (job : crdJob) (items : List instanceInfo) : List foundResource :=
  items.map fun item =>
    { crdName := job.crd.name, resourceName := job.gvr.resource,
      instanceName := item.name, «namespace» := item.«namespace» }

/-- What one job contributes on the result channel (main.go lines 238-298):
nothing when the context was cancelled before the job ran, nothing when the
query errored (`continue`), nothing when the query found no instances
(`len(workerResults) > 0` guard), and otherwise the complete batch. -/
def publishBatch (outcome : crdJob → JobOutcome) (job : crdJob) : Option (List foundResource) :=
  match outcome job with
  | .cancelled => none
  | .errored => none
  | .ok items => if (batchOf job items).length > 0 then some (batchOf job items) else none

/-- All batches published on the result channel for a job list, in job order;
the aggregator receives exactly these batches (in some arrival order). -/
def publishedBatches (jobs : List crdJob) (outcome : crdJob → JobOutcome) :
    List (List foundResource) :=
  jobs.filterMap (publishBatch outcome)

/-- Which query a worker issues for a job (main.go lines 258-264): the
cluster-wide list when all-namespaces is set or the namespace is empty,
otherwise the list restricted to the namespace. -/
inductive QuerySource
  | allNamespaces
  | inNamespace (ns : String)
deriving DecidableEq, Repr

/-- The branch condition of main.go line 258. -/
def querySource (allNamespaces : Bool) (ns : String) : QuerySource :=
  if allNamespaces ∨ ns = "" then .allNamespaces else .inNamespace ns

/-- A worker's instance query for one GVR, given the two oracles of the
Instance Query Client (cluster-wide and per-namespace listing). -/
def runJobQuery (allNamespaces : Bool) (ns : String)
    (listAll : GroupVersionResource → Except Unit (List instanceInfo))
    (listInNs : GroupVersionResource → String → Except Unit (List instanceInfo))
    (gvr : GroupVersionResource) : Except Unit (List instanceInfo) :=
  match querySource allNamespaces ns with
  | .allNamespaces => listAll gvr
  | .inNamespace n => listInNs gvr n

/-- When, relative to the run, the overall deadline fires: not at all
(`completed`), while `main` is sending jobs (main.go lines 169-176), or while
workers are executing (main.go lines 240-244 and 293-297). -/
inductive Phase
  | completed
  | dispatchDeadline
  | workerDeadline
deriving DecidableEq, Repr

/-- The observable outcome of a run: the bytes written to standard output, the
fatal message written by `log.Fatalf` (if any; `log.Fatalf` exits with a
non-zero status), and how many workers were started. -/
structure RunOutput where
  stdout : String
  fatalMsg : Option String
  workersStarted : Nat
deriving DecidableEq, Repr

/-- The process exit status: `log.Fatalf` exits non-zero, every other path of
`main` returns normally (status 0). -/
def exitCode (o : RunOutput) : Nat := if o.fatalMsg.isSome then 1 else 0

/-- The run pipeline of `main` after the CRD list call (main.go lines 117-228):
filter the CRDs; when no job remains, print the short-circuit message and start
no workers; otherwise start the workers. If the deadline fires while sending
jobs, `main` dies via `log.Fatalf` and prints nothing to standard output. In
every other case the collected batches (`collected` is the list of batches the
aggregator received before the cutoff — all published batches when the run
completes) are joined, sorted and rendered. -/
def runModel (numCPU : Nat) (crds : List CRD) (nsFlag : String)
    (ctxNamespace : Option String) (allNamespaces : Bool) (phase : Phase)
    (collected : List (List foundResource)) : RunOutput :=
  let ns := effectiveNamespace nsFlag ctxNamespace allNamespaces
  let jobsList := filterCRDs crds
  if jobsList.length = 0 then
    { stdout := "No namespaced custom resources found in cluster\n",
      fatalMsg := none, workersStarted := 0 }
  else
    let workers := numWorkersFor numCPU jobsList.length
    match phase with
    | .dispatchDeadline =>
      { stdout := "",
        fatalMsg := some "Timeout while sending jobs: context deadline exceeded",
        workersStarted := workers }
    | _ =>
      { stdout := renderOutput allNamespaces ns (sortResults collected.flatten),
        fatalMsg := none, workersStarted := workers }

/-! ## Helper lemmas and concrete fixtures -/

/-- A concrete namespaced CRD descriptor with the given version list, used to
instantiate universally quantified theorems. -/
def mkTestCRD (vs : List CRDVersion) : CRD :=
  { name := "tests.example.io",
    spec := { group := "example.io", names := { plural := "tests" },
              scope := "Namespaced", versions := vs } }

/-- A concrete cluster-scoped CRD descriptor. -/
def clusterScopedCRD : CRD :=
  { name := "nodesettings.example.io",
    spec := { group := "example.io", names := { plural := "nodesettings" },
              scope := "Cluster", versions := [⟨"v1", true⟩] } }

theorem findStorageVersionName_eq (vs : List CRDVersion) :
    findStorageVersionName vs = (vs.find? fun v => v.storage).map fun v => v.name := by
  induction vs with
  | nil => rfl
  | cons v rest ih =>
    by_cases h : v.storage = true
    · simp [findStorageVersionName, h, List.find?_cons_of_pos]
    · rw [findStorageVersionName, if_neg (by simp [h]),
        List.find?_cons_of_neg _ (by simp [h]), ih]

theorem getStoredVersion_of_versions_nil (crd : CRD) (h : crd.spec.versions = []) :
    getStoredVersion crd = "" := by
  unfold getStoredVersion
  rw [h]
  rfl

theorem filterCRDs_map_crd (crds : List CRD) :
    ((filterCRDs crds).map fun j => j.crd)
      = crds.filter fun c =>
          decide (c.spec.scope = "Namespaced") && decide (¬ getStoredVersion c = "") := by
  induction crds with
  | nil => rfl
  | cons c rest ih =>
    by_cases h1 : c.spec.scope = "Namespaced"
    · by_cases h2 : getStoredVersion c = ""
      · simp [filterCRDs, h1, h2, List.filter_cons, ih]
      · simp [filterCRDs, h1, h2, List.filter_cons, ih]
    · simp [filterCRDs, h1, List.filter_cons, ih]

/-! ## Claim theorems -/

/-- C1: for every input list of CRD descriptors, the filter produces a job
exactly for those descriptors whose scope is `Namespaced` and whose storage
version is resolvable (non-empty result of the resolution rule);
cluster-scoped descriptors and descriptors with no declared versions never
yield a job. -/
theorem c1_filter_exactly_eligible (crds : List CRD) :
    ((filterCRDs crds).map fun j => j.crd)
      = (crds.filter fun c =>
          decide (c.spec.scope = "Namespaced") && decide (¬ getStoredVersion c = "")) ∧
    ∀ c ∈ crds, (c.spec.scope ≠ "Namespaced" ∨ c.spec.versions = []) →
      ∀ j ∈ filterCRDs crds, j.crd ≠ c := by
  refine ⟨filterCRDs_map_crd crds, ?_⟩
  intro c _ hc j hj heq
  have hmem : j.crd ∈ (filterCRDs crds).map fun j => j.crd :=
    List.mem_map.mpr ⟨j, hj, rfl⟩
  rw [filterCRDs_map_crd] at hmem
  have hpred := (List.mem_filter.mp hmem).2
  simp only [Bool.and_eq_true, decide_eq_true_eq] at hpred
  rcases hc with hscope | hvers
  · rw [heq] at hpred
    exact hscope hpred.1
  · rw [heq] at hpred
    exact hpred.2 (getStoredVersion_of_versions_nil c hvers)

/-- Witness for C1: instantiated with a cluster-scoped descriptor next to an
eligible one; the cluster-scoped descriptor yields no job. -/
theorem c1_filter_exactly_eligible_witness :
    clusterScopedCRD ∈ [clusterScopedCRD, mkTestCRD [⟨"v1", true⟩]] ∧
    (clusterScopedCRD.spec.scope ≠ "Namespaced" ∨ clusterScopedCRD.spec.versions = []) ∧
    ∀ j ∈ filterCRDs [clusterScopedCRD, mkTestCRD [⟨"v1", true⟩]], j.crd ≠ clusterScopedCRD :=
  ⟨by simp, Or.inl (by decide),
   (c1_filter_exactly_eligible [clusterScopedCRD, mkTestCRD [⟨"v1", true⟩]]).2
     clusterScopedCRD (by simp) (Or.inl (by decide))⟩

/-- C2: storage-version resolution returns the name of the (first) version
flagged as the storage version; if no version is flagged, the first declared
version; if the descriptor declares no versions, the empty result (and the CRD
is excluded by the filter).  Includes the three concrete cases of the claim. -/
theorem c2_storage_version_resolution :
    (∀ crd : CRD,
      getStoredVersion crd
        = (((crd.spec.versions.find? fun v => v.storage).map fun v => v.name).getD
            ((crd.spec.versions.head?.map fun v => v.name).getD ""))) ∧
    getStoredVersion (mkTestCRD [⟨"v1", false⟩, ⟨"v2", true⟩]) = "v2" ∧
    getStoredVersion (mkTestCRD [⟨"v1", false⟩, ⟨"v2", false⟩]) = "v1" ∧
    getStoredVersion (mkTestCRD []) = "" ∧
    filterCRDs [mkTestCRD []] = [] := by
  refine ⟨?_, by decide, by decide, by decide, by decide⟩
  intro crd
  unfold getStoredVersion
  rw [findStorageVersionName_eq]
  cases hf : crd.spec.versions.find? fun v => v.storage with
  | some v => rfl
  | none =>
    cases hv : crd.spec.versions with
    | nil => simp [hv]
    | cons a t => simp [hv]

/-- C10: if a CRD descriptor declares more than one version flagged as the
storage version, resolution returns the first flagged version in declaration
order. -/
theorem c10_first_flagged_version_wins (pre post : List CRDVersion) (v : CRDVersion)
    (crd : CRD) (hvs : crd.spec.versions = pre ++ v :: post)
    (hpre : ∀ u ∈ pre, u.storage = false) (hv : v.storage = true) :
    getStoredVersion crd = v.name := by
  have h : findStorageVersionName (pre ++ v :: post) = some v.name := by
    clear hvs
    induction pre with
    | nil => simp [findStorageVersionName, hv]
    | cons u rest ih =>
      have hu : u.storage = false := hpre u (by simp)
      rw [List.cons_append, findStorageVersionName, if_neg (by simp [hu])]
      exact ih fun x hx => hpre x (by simp [hx])
  unfold getStoredVersion
  rw [hvs, h]

/-- Witness for C10: two versions carry the storage flag; resolution returns
the first flagged one (`v2`), in declaration order. -/
theorem c10_first_flagged_version_wins_witness :
    (mkTestCRD [⟨"v1", false⟩, ⟨"v2", true⟩, ⟨"v3", true⟩]).spec.versions
        = [⟨"v1", false⟩] ++ (⟨"v2", true⟩ : CRDVersion) :: [⟨"v3", true⟩] ∧
    getStoredVersion (mkTestCRD [⟨"v1", false⟩, ⟨"v2", true⟩, ⟨"v3", true⟩]) = "v2" :=
  ⟨rfl,
   c10_first_flagged_version_wins [⟨"v1", false⟩] [⟨"v3", true⟩] ⟨"v2", true⟩
     (mkTestCRD [⟨"v1", false⟩, ⟨"v2", true⟩, ⟨"v3", true⟩]) rfl (by decide) rfl⟩

theorem perm_flatten {α : Type} {l₁ l₂ : List (List α)} (h : List.Perm l₁ l₂) :
    List.Perm l₁.flatten l₂.flatten := by
  induction h with
  | nil => exact List.Perm.refl _
  | cons x _ ih =>
    simp only [List.flatten_cons]
    exact ih.append_left x
  | swap x y l =>
    simp only [List.flatten_cons]
    rw [← List.append_assoc, ← List.append_assoc]
    exact List.perm_append_comm.append_right _
  | trans _ _ ih1 ih2 => exact ih1.trans ih2

theorem sortResults_eq_of_perm {l₁ l₂ : List foundResource} (h : List.Perm l₁ l₂) :
    sortResults l₁ = sortResults l₂ :=
  List.eq_of_perm_of_sorted
    ((List.perm_insertionSort sortLE l₁).trans
      (h.trans (List.perm_insertionSort sortLE l₂).symm))
    (List.sorted_insertionSort sortLE l₁) (List.sorted_insertionSort sortLE l₂)

/-- C3: for every aggregated collection of found resources, the sorted output
is a permutation of the input ordered by the four-key lexicographic total
order: `crdName`, then `resourceName`, then `namespace`, then `instanceName`,
ascending, each comparison lexicographic by code point (the code-point order on
strings): any two rows in output order are either equal or strictly
lexicographically increasing. -/
theorem c3_sorted_four_key_order (l : List foundResource) :
    List.Perm (sortResults l) l ∧
    (sortResults l).Pairwise fun a b => a = b ∨ lexLT a b := by
  refine ⟨List.perm_insertionSort sortLE l, ?_⟩
  have hs : List.Sorted sortLE (sortResults l) := List.sorted_insertionSort sortLE l
  refine hs.imp ?_
  intro a b hab
  rw [sortLE_iff_sortKey_le] at hab
  rcases lt_or_eq_of_le hab with h | h
  · exact Or.inr ((lexLT_iff_sortKey_lt a b).mpr h)
  · exact Or.inl (sortKey_inj h)

/-- C6: two runs over identical catalog contents and identical per-coordinate
query results produce byte-identical output, independent of the order in which
the workers' batches arrive at the aggregator: any two arrival orders of the
published batches give equal `RunOutput`s (equal stdout bytes, equal exit
behaviour). -/
theorem c6_two_run_determinism (numCPU : Nat) (crds : List CRD) (nsFlag : String)
    (ctxNamespace : Option String) (allNamespaces : Bool)
    (outcome : crdJob → JobOutcome)
    (collected₁ collected₂ : List (List foundResource))
    (h₁ : List.Perm collected₁ (publishedBatches (filterCRDs crds) outcome))
    (h₂ : List.Perm collected₂ (publishedBatches (filterCRDs crds) outcome)) :
    runModel numCPU crds nsFlag ctxNamespace allNamespaces .completed collected₁
      = runModel numCPU crds nsFlag ctxNamespace allNamespaces .completed collected₂ := by
  have hperm : List.Perm collected₁ collected₂ := h₁.trans h₂.symm
  unfold runModel
  rw [sortResults_eq_of_perm (perm_flatten hperm)]

/-- The `widgets.example.io` descriptor of the specification's concrete
scenario: one version `v1` carrying the storage flag. -/
def widgetsCRD : CRD :=
  { name := "widgets.example.io",
    spec := { group := "example.io", names := { plural := "widgets" },
              scope := "Namespaced", versions := [⟨"v1", true⟩] } }

/-- The `gadgets.example.io` descriptor of the specification's concrete
scenario: versions `[v1 storage:false, v2 storage:true]`. -/
def gadgetsCRD : CRD :=
  { name := "gadgets.example.io",
    spec := { group := "example.io", names := { plural := "gadgets" },
              scope := "Namespaced", versions := [⟨"v1", false⟩, ⟨"v2", true⟩] } }

/-- The job the filter derives from `widgetsCRD`. -/
def widgetsJob : crdJob :=
  { crd := widgetsCRD, storedVersion := "v1",
    gvr := { group := "example.io", version := "v1", resource := "widgets" } }

/-- The job the filter derives from `gadgetsCRD`. -/
def gadgetsJob : crdJob :=
  { crd := gadgetsCRD, storedVersion := "v2",
    gvr := { group := "example.io", version := "v2", resource := "gadgets" } }

/-- A query oracle for the specification's concrete scenario: `widgets` has one
instance `foo` in `ns1`; every other CRD has instances `bar` (`ns1`) and `baz`
(`ns2`). -/
def demoOutcome : crdJob → JobOutcome := fun j =>
  if j.crd.name = "widgets.example.io" then .ok [⟨"foo", "ns1"⟩]
  else .ok [⟨"bar", "ns1"⟩, ⟨"baz", "ns2"⟩]

/-- The batch published for the `widgets` job under `demoOutcome`. -/
def widgetsBatch : List foundResource :=
  [{ crdName := "widgets.example.io", resourceName := "widgets",
     instanceName := "foo", «namespace» := "ns1" }]

/-- The batch published for the `gadgets` job under `demoOutcome`. -/
def gadgetsBatch : List foundResource :=
  [{ crdName := "gadgets.example.io", resourceName := "gadgets",
     instanceName := "bar", «namespace» := "ns1" },
   { crdName := "gadgets.example.io", resourceName := "gadgets",
     instanceName := "baz", «namespace» := "ns2" }]

/-- Witness for C6: the two eligible CRDs of the specification's scenario,
with the two published batches arriving in opposite orders, give equal runs. -/
theorem c6_two_run_determinism_witness :
    runModel 4 [widgetsCRD, gadgetsCRD] "" none true .completed [widgetsBatch, gadgetsBatch]
      = runModel 4 [widgetsCRD, gadgetsCRD] "" none true .completed
          [gadgetsBatch, widgetsBatch] := by
  have hpub : publishedBatches (filterCRDs [widgetsCRD, gadgetsCRD]) demoOutcome
      = [widgetsBatch, gadgetsBatch] := by decide
  exact c6_two_run_determinism 4 [widgetsCRD, gadgetsCRD] "" none true demoOutcome
    [widgetsBatch, gadgetsBatch] [gadgetsBatch, widgetsBatch]
    (by rw [hpub]) (by rw [hpub]; exact List.Perm.swap _ _ _)

/-- C4 counterexample: with one eligible CRD, a run whose deadline fires during
worker execution before any batch arrived is observably identical (same stdout
bytes, no fatal message, hence the same exit status) to a run that completed
normally with zero matches — no deadline-exceeded condition is reported; and a
run whose deadline fires during job dispatch dies fatally with empty standard
output, so the batches aggregated before the cutoff are not emitted. -/
theorem c4_counterexample :
    runModel 4 [widgetsCRD] "" none false .workerDeadline []
      = runModel 4 [widgetsCRD] "" none false .completed [] ∧
    (runModel 4 [widgetsCRD] "" none false .dispatchDeadline [widgetsBatch]).stdout = "" := by
  exact ⟨by decide, by decide⟩

/-- C4 (amended): when the overall deadline fires during job dispatch, the run
terminates early and reports the timeout fatally (non-zero exit status) but
emits none of the results aggregated before the cutoff; when it fires during
worker execution, the run emits the results aggregated before the cutoff but
reports no deadline-exceeded condition — its output is identical to that of a
normally completed run with the same aggregated results. -/
theorem c4_deadline_behavior (numCPU : Nat) (crds : List CRD) (nsFlag : String)
    (ctxNamespace : Option String) (allNamespaces : Bool)
    (collected : List (List foundResource))
    (h : ¬ (filterCRDs crds).length = 0) :
    (runModel numCPU crds nsFlag ctxNamespace allNamespaces .dispatchDeadline
        collected).fatalMsg = some "Timeout while sending jobs: context deadline exceeded" ∧
    exitCode (runModel numCPU crds nsFlag ctxNamespace allNamespaces .dispatchDeadline
        collected) = 1 ∧
    (runModel numCPU crds nsFlag ctxNamespace allNamespaces .dispatchDeadline
        collected).stdout = "" ∧
    runModel numCPU crds nsFlag ctxNamespace allNamespaces .workerDeadline collected
      = runModel numCPU crds nsFlag ctxNamespace allNamespaces .completed collected := by
  unfold runModel exitCode
  simp [h]

/-- Witness for C4 (amended): instantiated with the single eligible `widgets`
CRD and one collected batch. -/
theorem c4_deadline_behavior_witness :
    (runModel 4 [widgetsCRD] "" none false .dispatchDeadline [widgetsBatch]).fatalMsg
        = some "Timeout while sending jobs: context deadline exceeded" ∧
    exitCode (runModel 4 [widgetsCRD] "" none false .dispatchDeadline [widgetsBatch]) = 1 ∧
    (runModel 4 [widgetsCRD] "" none false .dispatchDeadline [widgetsBatch]).stdout = "" ∧
    runModel 4 [widgetsCRD] "" none false .workerDeadline [widgetsBatch]
      = runModel 4 [widgetsCRD] "" none false .completed [widgetsBatch] :=
  c4_deadline_behavior 4 [widgetsCRD] "" none false [widgetsBatch] (by decide)

/-- C5: when the instance query of exactly one job errors, that job contributes
zero entries (the published batches are exactly those of the remaining jobs),
every found resource of every other job is still present in the aggregate, and
the run exits successfully (status 0) — no per-CRD error is surfaced, the
output depending only on the published batches. -/
theorem c5_partial_failure_isolation (numCPU : Nat) (crds : List CRD)
    (nsFlag : String) (ctxNamespace : Option String) (allNamespaces : Bool)
    (outcome : crdJob → JobOutcome) (pre post : List crdJob) (j₀ : crdJob)
    (hjobs : filterCRDs crds = pre ++ j₀ :: post)
    (herr : outcome j₀ = .errored) :
    publishedBatches (filterCRDs crds) outcome = publishedBatches (pre ++ post) outcome ∧
    (∀ j ∈ pre ++ post, ∀ b, publishBatch outcome j = some b →
      ∀ fr ∈ b, fr ∈ (publishedBatches (filterCRDs crds) outcome).flatten) ∧
    exitCode (runModel numCPU crds nsFlag ctxNamespace allNamespaces .completed
      (publishedBatches (filterCRDs crds) outcome)) = 0 := by
  have hnone : publishBatch outcome j₀ = none := by
    unfold publishBatch
    rw [herr]
  have heq : publishedBatches (filterCRDs crds) outcome
      = publishedBatches (pre ++ post) outcome := by
    rw [hjobs]
    unfold publishedBatches
    rw [List.filterMap_append, List.filterMap_append, List.filterMap_cons, hnone]
  refine ⟨heq, ?_, ?_⟩
  · intro j hj b hb fr hfr
    rw [heq]
    refine List.mem_flatten.mpr ⟨b, ?_, hfr⟩
    exact List.mem_filterMap.mpr ⟨j, hj, hb⟩
  · unfold runModel exitCode
    by_cases h0 : (filterCRDs crds).length = 0 <;> simp [h0]

/-- A query oracle under which the `widgets` job errors and every other job
succeeds with instances `bar` (`ns1`) and `baz` (`ns2`). -/
def failingWidgetsOutcome : crdJob → JobOutcome := fun j =>
  if j.crd.name = "widgets.example.io" then .errored
  else .ok [⟨"bar", "ns1"⟩, ⟨"baz", "ns2"⟩]

/-- Witness for C5: of the two eligible CRDs, the `widgets` query errors; the
`gadgets` batch survives and the run exits with status 0. -/
theorem c5_partial_failure_isolation_witness :
    publishedBatches (filterCRDs [widgetsCRD, gadgetsCRD]) failingWidgetsOutcome
        = publishedBatches ([] ++ [gadgetsJob]) failingWidgetsOutcome ∧
    (∀ j ∈ ([] ++ [gadgetsJob] : List crdJob), ∀ b, publishBatch failingWidgetsOutcome j = some b →
      ∀ fr ∈ b,
        fr ∈ (publishedBatches (filterCRDs [widgetsCRD, gadgetsCRD])
          failingWidgetsOutcome).flatten) ∧
    exitCode (runModel 4 [widgetsCRD, gadgetsCRD] "" none true .completed
      (publishedBatches (filterCRDs [widgetsCRD, gadgetsCRD]) failingWidgetsOutcome)) = 0 :=
  c5_partial_failure_isolation 4 [widgetsCRD, gadgetsCRD] "" none true
    failingWidgetsOutcome [] [gadgetsJob] widgetsJob (by decide) (by decide)

/-- C7: with the all-namespaces flag set, the single-namespace selector is
cleared, every job's query is the cluster-wide listing (so an instance in any
namespace is discoverable), and each produced row's namespace field equals the
owning namespace the query returned for that instance, not a requested filter
value. -/
theorem c7_all_namespaces_mode (nsFlag : String) (ctxNamespace : Option String)
    (listAll : GroupVersionResource → Except Unit (List instanceInfo))
    (listInNs : GroupVersionResource → String → Except Unit (List instanceInfo))
    (job : crdJob) (items : List instanceInfo) :
    effectiveNamespace nsFlag ctxNamespace true = "" ∧
    querySource true (effectiveNamespace nsFlag ctxNamespace true) = .allNamespaces ∧
    runJobQuery true (effectiveNamespace nsFlag ctxNamespace true) listAll listInNs job.gvr
      = listAll job.gvr ∧
    (∀ item ∈ items, ∃ fr ∈ batchOf job items,
      fr.instanceName = item.name ∧ fr.«namespace» = item.«namespace») ∧
    (∀ fr ∈ batchOf job items, ∃ item ∈ items,
      fr.instanceName = item.name ∧ fr.«namespace» = item.«namespace») := by
  refine ⟨?_, ?_, ?_, ?_, ?_⟩
  · unfold effectiveNamespace
    simp
  · unfold querySource
    simp
  · unfold runJobQuery querySource
    simp
  · intro item hit
    exact ⟨_, List.mem_map_of_mem _ hit, rfl, rfl⟩
  · intro fr hfr
    rcases List.mem_map.mp hfr with ⟨item, hit, hfr⟩
    subst hfr
    exact ⟨item, hit, rfl, rfl⟩

/-- Witness for C7: a non-empty namespace flag and a context namespace are both
overridden; the instance `bar` owned by `ns1` yields a row whose namespace
field is `ns1`. -/
theorem c7_all_namespaces_mode_witness :
    effectiveNamespace "prod" (some "dev") true = "" ∧
    (∃ fr ∈ batchOf gadgetsJob [⟨"bar", "ns1"⟩],
      fr.instanceName = "bar" ∧ fr.«namespace» = "ns1") := by
  obtain ⟨h1, _, _, h4, _⟩ := c7_all_namespaces_mode "prod" (some "dev")
    (fun _ => Except.ok []) (fun _ _ => Except.ok []) gadgetsJob [⟨"bar", "ns1"⟩]
  exact ⟨h1, h4 ⟨"bar", "ns1"⟩ (by simp)⟩

theorem numWorkersFor_eq_min (numCPU numJobs : Nat) :
    numWorkersFor numCPU numJobs = min 20 (min numJobs (numCPU * 3)) := by
  simp only [numWorkersFor]
  split_ifs <;> omega

/-- C8: for every filtered job set of size `numJobs > 0` the number of workers
started equals `min(20, numJobs, numCPU × 3)`; when the filtered job set is
empty no workers are started and the pipeline short-circuits with the
"no namespaced custom resources" message. -/
theorem c8_worker_count_policy (numCPU : Nat) (crds : List CRD) (nsFlag : String)
    (ctxNamespace : Option String) (allNamespaces : Bool) (phase : Phase)
    (collected : List (List foundResource)) :
    (0 < (filterCRDs crds).length →
      (runModel numCPU crds nsFlag ctxNamespace allNamespaces phase
          collected).workersStarted
        = min 20 (min (filterCRDs crds).length (numCPU * 3))) ∧
    ((filterCRDs crds).length = 0 →
      (runModel numCPU crds nsFlag ctxNamespace allNamespaces phase
          collected).workersStarted = 0 ∧
      (runModel numCPU crds nsFlag ctxNamespace allNamespaces phase collected).stdout
        = "No namespaced custom resources found in cluster\n") := by
  constructor
  · intro h
    have h0 : ¬ (filterCRDs crds).length = 0 := by omega
    unfold runModel
    cases phase <;> simp [h0, numWorkersFor_eq_min]
  · intro h
    unfold runModel
    simp [h]

/-- Witness for C8: one eligible CRD with four CPUs gives one worker; an input
with only a cluster-scoped CRD filters to the empty job set, starts no workers
and prints the short-circuit message. -/
theorem c8_worker_count_policy_witness :
    (runModel 4 [widgetsCRD] "" none false .completed []).workersStarted
        = min 20 (min (filterCRDs [widgetsCRD]).length (4 * 3)) ∧
    (runModel 4 [clusterScopedCRD] "" none false .completed []).workersStarted = 0 ∧
    (runModel 4 [clusterScopedCRD] "" none false .completed []).stdout
        = "No namespaced custom resources found in cluster\n" :=
  ⟨(c8_worker_count_policy 4 [widgetsCRD] "" none false .completed []).1 (by decide),
   ((c8_worker_count_policy 4 [clusterScopedCRD] "" none false .completed []).2 (by decide)).1,
   ((c8_worker_count_policy 4 [clusterScopedCRD] "" none false .completed []).2 (by decide)).2⟩

/-- C9: every published batch is non-empty and is the complete instance set of
exactly one successfully completed job; a batch is published for every job that
completed successfully with at least one instance; and a job that was cancelled
(deadline fired) or errored publishes nothing — no partial batch exists. -/
theorem c9_batch_publication (jobs : List crdJob) (outcome : crdJob → JobOutcome) :
    (∀ b ∈ publishedBatches jobs outcome,
      b ≠ [] ∧ ∃ j ∈ jobs, ∃ items, outcome j = .ok items ∧ b = batchOf j items) ∧
    (∀ j ∈ jobs, ∀ items, outcome j = .ok items → items ≠ [] →
      batchOf j items ∈ publishedBatches jobs outcome) ∧
    (∀ j, outcome j = .cancelled ∨ outcome j = .errored →
      publishBatch outcome j = none) := by
  refine ⟨?_, ?_, ?_⟩
  · intro b hb
    rcases List.mem_filterMap.mp hb with ⟨j, hj, hpub⟩
    unfold publishBatch at hpub
    cases hoc : outcome j with
    | cancelled => rw [hoc] at hpub; cases hpub
    | errored => rw [hoc] at hpub; cases hpub
    | ok items =>
      rw [hoc] at hpub
      dsimp only at hpub
      by_cases hlen : (batchOf j items).length > 0
      · rw [if_pos hlen] at hpub
        injection hpub with hpub
        subst hpub
        refine ⟨?_, j, hj, items, hoc, rfl⟩
        intro hnil
        rw [hnil] at hlen
        simp at hlen
      · rw [if_neg hlen] at hpub
        cases hpub
  · intro j hj items hoc hne
    refine List.mem_filterMap.mpr ⟨j, hj, ?_⟩
    unfold publishBatch
    rw [hoc]
    dsimp only
    rw [if_pos ?_]
    unfold batchOf
    simp [List.length_pos, hne]
  · intro j h
    unfold publishBatch
    rcases h with h | h <;> rw [h]

/-- Witness for C9: the `gadgets` job succeeding with one instance publishes
its complete batch. -/
theorem c9_batch_publication_witness :
    batchOf gadgetsJob [⟨"bar", "ns1"⟩]
      ∈ publishedBatches [gadgetsJob] (fun _ => JobOutcome.ok [⟨"bar", "ns1"⟩]) :=
  (c9_batch_publication [gadgetsJob] (fun _ => JobOutcome.ok [⟨"bar", "ns1"⟩])).2.1
    gadgetsJob (by simp) [⟨"bar", "ns1"⟩] rfl (by simp)

end Kgcr
